import Mathlib

/-!
Shallow embedding of the hospital imaging records backend
(FastAPI/SQLAlchemy application) and verification of its specification.

Python sources embedded here:
* `backend/app/utils/validators.py`  — RUT checksum validator, age derivation
* `backend/app/utils/helpers.py`     — RUT cleaning, month/year extraction
* `backend/app/schemas/examen.py`    — CT payload schema and its cross-field
  validator, CT update schema
* `backend/app/routers/examenes.py`  — patient find-or-create, CT exam
  create / list / get / update / soft-delete
* `backend/app/routers/reportes.py`  — monthly time-series report
* `backend/app/routers/pacientes.py` — patient hard delete
* `backend/app/routers/usuarios.py`  — user toggle / delete / self-delete
* `backend/app/models/*.py`          — the relational rows and their cascade
  declarations

Python `date` values are embedded as triples of numerals compared
lexicographically (exactly the comparison order of `datetime.date`);
`datetime` instants are abstracted to `Nat`; strings are Lean `String`s
with ASCII case mapping and ASCII digit classification.
-/

namespace Hospital


/-- Embedding of Python `datetime.date`: year, month, day.
`datetime.date` compares lexicographically on (year, month, day). -/
structure Date where
  y : Nat
  m : Nat
  d : Nat
deriving DecidableEq, Repr


/-- Strict order of `datetime.date` (lexicographic on year, month, day). -/
def Date.ltb (a b : Date) : Bool :=
  decide (a.y < b.y ∨ (a.y = b.y ∧ (a.m < b.m ∨ (a.m = b.m ∧ a.d < b.d))))


/-- Non-strict order of `datetime.date`. -/
def Date.leb (a b : Date) : Bool :=
  a == b || Date.ltb a b


-- ============================================================
-- utils/validators.py and utils/helpers.py
-- ============================================================

/-- `helpers.limpiar_rut`: `rut.replace(".", "").replace("-", "")`. -/
def limpiar_rut (rut : String) : String :=
  String.mk (rut.data.filter (fun c => !(c == '.' || c == '-')))


/-- Normalisation step of `validar_rut_chileno`:
`rut.replace(".", "").replace("-", "").upper()`. -/
def rutNormalize (rut : String) : List Char :=
  (rut.data.filter (fun c => !(c == '.' || c == '-'))).map Char.toUpper


/-- `int(digito)` on a single digit character. -/
def charToNat (c : Char) : Nat := c.toNat - '0'.toNat


/-- The accumulation loop of `validar_rut_chileno`
(`suma`, `multiplo` state; `multiplo` is reset to 2 upon reaching 8),
run over the digits right-to-left. -/
def codeSumLoop : List Char → Nat → Nat → Nat
  | [], suma, _ => suma
  | d :: ds, suma, multiplo =>
      codeSumLoop ds (suma + charToNat d * multiplo)
        (if multiplo + 1 == 8 then 2 else multiplo + 1)


/-- The check-digit character produced from `dv_calculado = 11 - suma % 11`
(`11 → "0"`, `10 → "K"`, otherwise the decimal digit). -/
def dvChar (dv : Nat) : Char :=
  if dv == 11 then '0'
  else if dv == 10 then 'K'
  else Char.ofNat ('0'.toNat + dv)


/-- `validators.validar_rut_chileno`: clean separators and uppercase, require
at least 8 characters, split off the final check character, require the
numeric portion to be all digits, and compare the supplied check character
with the computed one. -/
def validar_rut_chileno (rut : String) : Bool :=
  let limpio := rutNormalize rut
  if limpio.length < 8 then false
  else
    let rut_numeros := limpio.dropLast
    let digito_verificador := limpio.getLastD ' '
    if rut_numeros.all Char.isDigit then
      digito_verificador == dvChar (11 - codeSumLoop rut_numeros.reverse 0 2 % 11)
    else false


/-- Reference weighted sum, following the specification text: iterate the
digits right-to-left, multiplying the digit at (0-based) position `i` from
the right by the cyclic weight `2 + i % 6` (the weight sequence
2,3,4,5,6,7,2,3,...). -/
def refSum : List Char → Nat → Nat
  | [], _ => 0
  | d :: ds, i => charToNat d * (2 + i % 6) + refSum ds (i + 1)


/-- Reference validator built from the specification's words: normalise,
require at least 8 total characters with an all-digit numeric portion, and
accept iff the supplied check character equals the check digit of the
weighted modulo-11 reference algorithm
(`check = 11 - (sum mod 11)`, `11 → "0"`, `10 → "K"`). -/
def rutReference (rut : String) : Bool :=
  let limpio := rutNormalize rut
  if limpio.length < 8 then false
  else
    let cuerpo := limpio.dropLast
    if cuerpo.all Char.isDigit then
      limpio.getLastD ' ' == dvChar (11 - refSum cuerpo.reverse 0 % 11)
    else false


/-- `validators.calcular_edad`: year difference, decremented by one when the
reference month/day precedes the birth month/day.  (The Python function
returns a plain `int`, so the result is an integer, possibly negative.) -/
def calcular_edad (fecha_nacimiento : Date) (fecha_referencia : Date) : Int :=
  let edad : Int := (fecha_referencia.y : Int) - (fecha_nacimiento.y : Int)
  if fecha_referencia.m < fecha_nacimiento.m ∨
      (fecha_referencia.m = fecha_nacimiento.m ∧
        fecha_referencia.d < fecha_nacimiento.d) then
    edad - 1
  else
    edad


/-- `helpers.extraer_mes_anio`: `(fecha.month, fecha.year)`. -/
def extraer_mes_anio (fecha : Date) : Nat × Nat :=
  (fecha.m, fecha.y)


-- ============================================================
-- Data model rows (models/*.py)
-- ============================================================

/-- Row of `models/paciente.py` (`pacientes` table). -/
structure Paciente where
  id : Nat
  rut : String
  nombre_completo : String
  fecha_nacimiento : Option Date
deriving DecidableEq, Repr


/-- Row of `models/usuario.py` (`usuarios` table). -/
structure Usuario where
  id : Nat
  rut : String
  nombre : String
  email : String
  celular : Option String
  password_hash : String
  rol : String
  activo : Bool
  debe_cambiar_password : Bool
deriving DecidableEq, Repr


/-- Row of `models/examen_base.py` (`examenes_base` table).  `DateTime`
instants are abstracted to `Nat`; nullable foreign keys are `Option Nat`.
The `updated_at` column carries `onupdate=datetime.utcnow`
(`examen_base.py:28`), so the ORM bumps it on every UPDATE of the row. -/
structure ExamenBase where
  id : Nat
  tipo_examen : String
  fecha_realizacion : Date
  atencion : String
  prevision_id : Option Nat
  procedencia_id : Option Nat
  paciente_id : Nat
  examen_especifico_id : Nat
  codigo_mai_id : Option Nat
  contrato : String
  mes_realizacion : Nat
  anio_realizacion : Nat
  created_by : Option Nat
  updated_by : Option Nat
  created_at : Nat
  updated_at : Nat
  deleted_at : Option Nat
  en_revision : Bool
  motivo_revision : Option String
deriving DecidableEq, Repr


/-- Row of `models/examen_tac.py` (`examenes_tac` table); times of day are
abstracted to `Nat`. -/
structure ExamenTAC where
  examen_base_id : Nat
  fecha_solicitud : Date
  hora_realizacion : Nat
  fecha_nacimiento : Option Date
  edad : Option Int
  externo : Option String
  protocolo_id : Option Nat
  cod_acv : Bool
  ges : Bool
  medio_contraste : Bool
  vfge : Option String
  premedicado : Option Bool
  diagnostico_clinico_id : Option Nat
  medico_solicitante_id : Option Nat
  tm_id : Option Nat
  tp_id : Option Nat
  secretaria_id : Option Nat
  observacion : Option String
deriving DecidableEq, Repr


/-- The relational store: the tables the verified operations touch. -/
structure DB where
  pacientes : List Paciente
  usuarios : List Usuario
  examenes : List ExamenBase
  tacs : List ExamenTAC
  nextPacienteId : Nat
  nextExamenId : Nat
deriving DecidableEq, Repr


-- ============================================================
-- schemas/examen.py
-- ============================================================

/-- The `ValueError`s raised by `ExamenTACEspecifico.validar_tac`. -/
inductive TACValidationError where
  | fechaSolicitudPosterior
  | premedicadoObligatorio
deriving DecidableEq, Repr


/-- The error taxonomy of the embedded endpoints: pydantic validation
failures and the `HTTPException`s raised by the routers. -/
inductive ApiError where
  | validation (e : TACValidationError)
  | badRequest
  | notFound
  | forbidden
  | unauthenticated
  | unprocessable
deriving DecidableEq, Repr


/-- Did the call fail (any error status)? -/
def failed (r : Except ApiError β) : Bool :=
  match r with
  | .error _ => true
  | .ok _ => false


/-- `schemas/examen.py::ExamenTACCreate` = `ExamenBaseData` +
`ExamenTACEspecifico`: the full CT registration payload. -/
structure ExamenTACCreate where
  -- ExamenBaseData
  tipo_examen : String
  fecha_realizacion : Date
  atencion : String
  prevision_id : Nat
  procedencia_id : Nat
  paciente_rut : String
  paciente_nombre : Option String
  examen_especifico_id : Nat
  codigo_mai_id : Nat
  contrato : String
  -- ExamenTACEspecifico
  fecha_solicitud : Date
  hora_realizacion : Nat
  fecha_nacimiento : Option Date
  externo : Option String
  protocolo_id : Option Nat
  cod_acv : Bool
  ges : Bool
  medio_contraste : Bool
  vfge : Option String
  premedicado : Option Bool
  diagnostico_clinico_id : Option Nat
  medico_solicitante_id : Option Nat
  tm_id : Option Nat
  tp_id : Option Nat
  secretaria_id : Option Nat
  observacion : Option String
deriving DecidableEq, Repr


/-- Python truthiness of an optional string (`if self.vfge` / `if not
nombre`): `None` and the empty string are falsy. -/
def strTruthy : Option String → Bool
  | none => false
  | some s => !(s == "")


/-- Python `str.lower()` (ASCII case mapping, applied per character). -/
def strLower (s : String) : String :=
  String.mk (s.data.map Char.toLower)


/-- `ExamenTACEspecifico.validar_tac` as run on an `ExamenTACCreate`
payload (there `fecha_realizacion` is present, so the `hasattr` guard on
the date rule passes): `fecha_solicitud` must not be later than
`fecha_realizacion`, and a truthy `vfge` different (case-insensitively)
from the sentinel "sin creatinina" requires `premedicado` to be non-null. -/
def validar_tac (p : ExamenTACCreate) : Except TACValidationError Unit :=
  if Date.ltb p.fecha_realizacion p.fecha_solicitud then
    .error .fechaSolicitudPosterior
  else if strTruthy p.vfge &&
      !(strLower (p.vfge.getD "") == "sin creatinina") &&
      p.premedicado == none then
    .error .premedicadoObligatorio
  else
    .ok ()


-- ============================================================
-- middleware/auth_middleware.py
-- ============================================================

/-- `get_current_user`'s account-state check: an authenticated but
deactivated account is rejected with 403. -/
def requireActive (u : Usuario) : Except ApiError Unit :=
  if u.activo then .ok () else .error .forbidden


/-- `require_admin`: active account with role `administrador`. -/
def require_admin (u : Usuario) : Except ApiError Unit :=
  match requireActive u with
  | .error e => .error e
  | .ok () =>
      if u.rol == "administrador" then .ok () else .error .forbidden


/-- `require_ingresador_o_admin`: active account with role `ingresador` or
`administrador`. -/
def require_ingresador_o_admin (u : Usuario) : Except ApiError Unit :=
  match requireActive u with
  | .error e => .error e
  | .ok () =>
      if u.rol == "ingresador" || u.rol == "administrador" then .ok ()
      else .error .forbidden


-- ============================================================
-- routers/examenes.py : obtener_o_crear_paciente
-- ============================================================

/-- The in-place birth-date update of `obtener_o_crear_paciente`
(`if fecha_nac and not paciente.fecha_nacimiento: ... = fecha_nac`): the
stored date is overwritten only when one is supplied and none is stored. -/
def actualizaFecha (fnac : Option Date) (p : Paciente) : Paciente :=
  match fnac, p.fecha_nacimiento with
  | some d, none => { p with fecha_nacimiento := some d }
  | _, _ => p


/-- The lookup-and-maybe-update step of `obtener_o_crear_paciente`: find
the first patient whose `rut` equals the cleaned RUT; if found, apply the
in-place birth-date update.  Returns the (possibly updated) table and the
returned patient. -/
def buscarActualizar (rutL : String) (fnac : Option Date) :
    List Paciente → Option (List Paciente × Paciente)
  | [] => none
  | p :: ps =>
      if p.rut == rutL then
        some (actualizaFecha fnac p :: ps, actualizaFecha fnac p)
      else
        (buscarActualizar rutL fnac ps).map (fun r => (p :: r.1, r.2))


/-- `routers/examenes.py::obtener_o_crear_paciente`: clean the RUT, reject
checksum-invalid RUTs with 400, return (updating a missing birth date in
place) an existing patient, otherwise require a truthy name (400 when
absent) and insert a fresh patient row. -/
def obtener_o_crear_paciente (db : DB) (rut : String) (nombre : Option String)
    (fecha_nac : Option Date) : Except ApiError (DB × Paciente) :=
  let rut_limpio := limpiar_rut rut
  if !validar_rut_chileno rut_limpio then .error .badRequest
  else
    match buscarActualizar rut_limpio fecha_nac db.pacientes with
    | some (ps', p) => .ok ({ db with pacientes := ps' }, p)
    | none =>
        if !strTruthy nombre then .error .badRequest
        else
          let nuevo : Paciente :=
            { id := db.nextPacienteId
              rut := rut_limpio
              nombre_completo := nombre.getD ""
              fecha_nacimiento := fecha_nac }
          .ok ({ db with
                  pacientes := db.pacientes ++ [nuevo]
                  nextPacienteId := db.nextPacienteId + 1 }, nuevo)


-- ============================================================
-- routers/examenes.py : crear_examen_tac
-- ============================================================

/-- `schemas/examen.py::ExamenTACResponse`. -/
structure ExamenTACResponse where
  id : Nat
  tipo_examen : String
  fecha_realizacion : Date
  atencion : String
  mes_realizacion : Nat
  anio_realizacion : Nat
  created_at : Nat
  fecha_solicitud : Date
  hora_realizacion : Nat
  edad : Option Int
  cod_acv : Bool
  ges : Bool
  medio_contraste : Bool
  observacion : Option String
deriving DecidableEq, Repr


/-- `routers/examenes.py::crear_examen_tac` (the endpoint body, run on an
already schema-validated payload): resolve or create the patient, derive
month/year from the realization date, derive the age when a birth date is
present, insert the base row and the CT specialization row, and return the
combined response. -/
def crear_examen_tac (db : DB) (data : ExamenTACCreate) (current : Usuario)
    (now : Nat) : Except ApiError (DB × ExamenTACResponse) :=
  match require_ingresador_o_admin current with
  | .error e => .error e
  | .ok () =>
    match obtener_o_crear_paciente db data.paciente_rut data.paciente_nombre
        data.fecha_nacimiento with
    | .error e => .error e
    | .ok (db1, paciente) =>
        let ma := extraer_mes_anio data.fecha_realizacion
        let edad : Option Int :=
          match data.fecha_nacimiento with
          | some fn => some (calcular_edad fn data.fecha_realizacion)
          | none => none
        let base : ExamenBase :=
          { id := db1.nextExamenId
            tipo_examen := "TAC"
            fecha_realizacion := data.fecha_realizacion
            atencion := data.atencion
            prevision_id := some data.prevision_id
            procedencia_id := some data.procedencia_id
            paciente_id := paciente.id
            examen_especifico_id := data.examen_especifico_id
            codigo_mai_id := some data.codigo_mai_id
            contrato := data.contrato
            mes_realizacion := ma.1
            anio_realizacion := ma.2
            created_by := some current.id
            updated_by := some current.id
            created_at := now
            updated_at := now
            deleted_at := none
            en_revision := false
            motivo_revision := none }
        let tac : ExamenTAC :=
          { examen_base_id := base.id
            fecha_solicitud := data.fecha_solicitud
            hora_realizacion := data.hora_realizacion
            fecha_nacimiento := data.fecha_nacimiento
            edad := edad
            externo := data.externo
            protocolo_id := data.protocolo_id
            cod_acv := data.cod_acv
            ges := data.ges
            medio_contraste := data.medio_contraste
            vfge := data.vfge
            premedicado := data.premedicado
            diagnostico_clinico_id := data.diagnostico_clinico_id
            medico_solicitante_id := data.medico_solicitante_id
            tm_id := data.tm_id
            tp_id := data.tp_id
            secretaria_id := data.secretaria_id
            observacion := data.observacion }
        let resp : ExamenTACResponse :=
          { id := base.id
            tipo_examen := base.tipo_examen
            fecha_realizacion := base.fecha_realizacion
            atencion := base.atencion
            mes_realizacion := base.mes_realizacion
            anio_realizacion := base.anio_realizacion
            created_at := base.created_at
            fecha_solicitud := tac.fecha_solicitud
            hora_realizacion := tac.hora_realizacion
            edad := tac.edad
            cod_acv := tac.cod_acv
            ges := tac.ges
            medio_contraste := tac.medio_contraste
            observacion := tac.observacion }
        .ok ({ db1 with
                examenes := db1.examenes ++ [base]
                tacs := db1.tacs ++ [tac]
                nextExamenId := db1.nextExamenId + 1 }, resp)


-- ============================================================
-- routers/examenes.py : listar / obtener / eliminar (TAC)
-- ============================================================

/-- Insertion step of the sort modelling `ORDER BY`. -/
def insertSorted (le : α → α → Bool) (x : α) : List α → List α
  | [] => [x]
  | y :: ys => if le x y then x :: y :: ys else y :: insertSorted le x ys


/-- Insertion sort modelling `ORDER BY` (any stable order works for the
verified properties). -/
def sortBy (le : α → α → Bool) : List α → List α
  | [] => []
  | x :: xs => insertSorted le x (sortBy le xs)


/-- The SQL join of `ExamenBase` with `ExamenTAC` on
`ExamenBase.id == ExamenTAC.examen_base_id`. -/
def joinTList (bases : List ExamenBase) (tacs : List ExamenTAC) :
    List (ExamenBase × ExamenTAC) :=
  bases.foldr
    (fun b acc =>
      (tacs.filter (fun t => t.examen_base_id == b.id)).map (fun t => (b, t)) ++ acc)
    []


/-- The combined base + CT response the endpoints build. -/
def tacResponseOf (b : ExamenBase) (t : ExamenTAC) : ExamenTACResponse :=
  { id := b.id
    tipo_examen := b.tipo_examen
    fecha_realizacion := b.fecha_realizacion
    atencion := b.atencion
    mes_realizacion := b.mes_realizacion
    anio_realizacion := b.anio_realizacion
    created_at := b.created_at
    fecha_solicitud := t.fecha_solicitud
    hora_realizacion := t.hora_realizacion
    edad := t.edad
    cod_acv := t.cod_acv
    ges := t.ges
    medio_contraste := t.medio_contraste
    observacion := t.observacion }


/-- An optional equality filter guarded by Python truthiness (`if mes:` /
`if anio:` skip the filter when the value is absent or 0). -/
def optNatFilter (sel : ExamenBase × ExamenTAC → Nat) (o : Option Nat)
    (q : List (ExamenBase × ExamenTAC)) : List (ExamenBase × ExamenTAC) :=
  match o with
  | some m => if m == 0 then q else q.filter (fun bt => sel bt == m)
  | none => q


/-- The month/year filters, ordering, pagination and response building of
`listar_examenes_tac`. -/
def listarRest (q : List (ExamenBase × ExamenTAC)) (mes anio : Option Nat)
    (skip limit : Nat) : List ExamenTACResponse :=
  let q4 := optNatFilter (fun bt => bt.1.anio_realizacion) anio
    (optNatFilter (fun bt => bt.1.mes_realizacion) mes q)
  let sorted := sortBy (fun x y => Date.leb y.1.fecha_realizacion x.1.fecha_realizacion) q4
  ((sorted.drop skip).take limit).map (fun bt => tacResponseOf bt.1 bt.2)


/-- The joined, type-, deletion- and date-range-filtered query of
`listar_examenes_tac`. -/
def listarFiltro (db : DB) (fecha_inicio fecha_fin : Option Date) :
    List (ExamenBase × ExamenTAC) :=
  let q0 := (joinTList db.examenes db.tacs).filter
    (fun bt => bt.1.tipo_examen == "TAC" && bt.1.deleted_at == none)
  let q1 := match fecha_inicio with
    | some fi => q0.filter (fun bt => Date.leb fi bt.1.fecha_realizacion)
    | none => q0
  match fecha_fin with
  | some ff => q1.filter (fun bt => Date.leb bt.1.fecha_realizacion ff)
  | none => q1


/-- `routers/examenes.py::listar_examenes_tac`: join base and CT rows,
keep non-deleted CT exams, apply the optional date-range / patient /
month / year filters (a supplied patient RUT that resolves to no patient
short-circuits to an empty list), order by realization date descending,
and paginate. -/
def listar_examenes_tac (db : DB) (skip limit : Nat)
    (fecha_inicio fecha_fin : Option Date) (paciente_rut : Option String)
    (mes anio : Option Nat) (current : Usuario) :
    Except ApiError (List ExamenTACResponse) :=
  match require_ingresador_o_admin current with
  | .error e => .error e
  | .ok () =>
    let q2 := listarFiltro db fecha_inicio fecha_fin
    match paciente_rut with
    | some rs =>
        if rs == "" then .ok (listarRest q2 mes anio skip limit)
        else
          match db.pacientes.find? (fun p => p.rut == limpiar_rut rs) with
          | some pac =>
              .ok (listarRest (q2.filter (fun bt => bt.1.paciente_id == pac.id))
                mes anio skip limit)
          | none => .ok []
    | none => .ok (listarRest q2 mes anio skip limit)


/-- `routers/examenes.py::obtener_examen_tac`: the single-exam read,
filtering on id, CT type and `deleted_at IS NULL`. -/
def obtener_examen_tac (db : DB) (examen_id : Nat) (current : Usuario) :
    Except ApiError ExamenTACResponse :=
  match require_ingresador_o_admin current with
  | .error e => .error e
  | .ok () =>
    match (joinTList db.examenes db.tacs).find?
        (fun bt => bt.1.id == examen_id && bt.1.tipo_examen == "TAC" &&
          bt.1.deleted_at == none) with
    | some bt => .ok (tacResponseOf bt.1 bt.2)
    | none => .error .notFound


/-- `.first()` + in-place mutation of `eliminar_examen_tac`: stamp
`deleted_at` and `updated_by` on the first non-deleted CT base row with
the requested id (the ORM's `onupdate` hook also bumps `updated_at` on
the resulting UPDATE); `none` when no row qualifies. -/
def softDeleteFirst (eid uid now : Nat) : List ExamenBase → Option (List ExamenBase)
  | [] => none
  | e :: es =>
      if e.id == eid && e.tipo_examen == "TAC" && e.deleted_at == none then
        some ({ e with deleted_at := some now, updated_by := some uid,
                       updated_at := now } :: es)
      else
        (softDeleteFirst eid uid now es).map (fun l => e :: l)


/-- `routers/examenes.py::eliminar_examen_tac`: administrator-only soft
delete of a CT exam. -/
def eliminar_examen_tac (db : DB) (examen_id : Nat) (current : Usuario)
    (now : Nat) : Except ApiError DB :=
  match require_admin current with
  | .error e => .error e
  | .ok () =>
    match softDeleteFirst examen_id current.id now db.examenes with
    | some es' => .ok { db with examenes := es' }
    | none => .error .notFound


-- ============================================================
-- routers/reportes.py : examenes_por_periodo
-- ============================================================

/-- The filtered query of `reportes.py::examenes_por_periodo`: non-deleted
exams of the requested year, restricted by exam type when a truthy type is
supplied (`if tipo_examen:`). -/
def periodoQuery (db : DB) (anio : Nat) (tipo : Option String) :
    List ExamenBase :=
  let q := db.examenes.filter
    (fun e => e.anio_realizacion == anio && e.deleted_at == none)
  match tipo with
  | some t => if t == "" then q else q.filter (fun e => e.tipo_examen == t)
  | none => q


/-- The data array of `examenes_por_periodo`: group the filtered exams by
realization month, then fill a 12-entry dict pre-seeded with zeros and read
it back for months 1..12. -/
def porPeriodoData (db : DB) (anio : Nat) (tipo : Option String) : List Nat :=
  let filtered := periodoQuery db anio tipo
  let months := (filtered.map (fun e => e.mes_realizacion)).dedup
  let resultados := months.map
    (fun m => (m, (filtered.filter (fun e => e.mes_realizacion == m)).length))
  (List.range 12).map (fun i =>
    match resultados.find? (fun p => p.1 == i + 1) with
    | some p => p.2
    | none => 0)


/-- `reportes.py::examenes_por_periodo` (grouped by month): any
authenticated active user may call it; returns the labels' 12-entry data
array. -/
def examenes_por_periodo (db : DB) (anio : Nat) (tipo : Option String)
    (current : Usuario) : Except ApiError (List Nat) :=
  match requireActive current with
  | .error e => .error e
  | .ok () => .ok (porPeriodoData db anio tipo)


-- ============================================================
-- routers/examenes.py : actualizar_examen_tac
-- ============================================================

/-- `schemas/examen.py::ExamenTACUpdate`: every field optional, and no
cross-field `model_validator` is declared on it. -/
structure ExamenTACUpdate where
  fecha_realizacion : Option Date := none
  atencion : Option String := none
  prevision_id : Option Nat := none
  procedencia_id : Option Nat := none
  codigo_mai_id : Option Nat := none
  contrato : Option String := none
  fecha_solicitud : Option Date := none
  hora_realizacion : Option Nat := none
  fecha_nacimiento : Option Date := none
  externo : Option String := none
  protocolo_id : Option Nat := none
  cod_acv : Option Bool := none
  ges : Option Bool := none
  medio_contraste : Option Bool := none
  vfge : Option String := none
  premedicado : Option Bool := none
  diagnostico_clinico_id : Option Nat := none
  medico_solicitante_id : Option Nat := none
  tm_id : Option Nat := none
  tp_id : Option Nat := none
  secretaria_id : Option Nat := none
  observacion : Option String := none
deriving DecidableEq, Repr


/-- Replace the first element satisfying the predicate (the `.first()` +
in-place `setattr` mutation pattern). -/
def replaceFirst (p : α → Bool) (y : α) : List α → List α
  | [] => []
  | x :: xs => if p x then y :: xs else x :: replaceFirst p y xs


/-- The `setattr` loop of `actualizar_examen_tac` over the base row
(`campos_base`), the month/year recomputation when `fecha_realizacion` is
supplied, and the `updated_by` stamp (the ORM's `onupdate` hook bumps
`updated_at` on the UPDATE), denoted as the resulting row. -/
def applyBaseUpd (upd : ExamenTACUpdate) (uid now : Nat) (b : ExamenBase) :
    ExamenBase :=
  { b with
    fecha_realizacion := upd.fecha_realizacion.getD b.fecha_realizacion
    atencion := upd.atencion.getD b.atencion
    prevision_id := match upd.prevision_id with
      | some v => some v
      | none => b.prevision_id
    procedencia_id := match upd.procedencia_id with
      | some v => some v
      | none => b.procedencia_id
    codigo_mai_id := match upd.codigo_mai_id with
      | some v => some v
      | none => b.codigo_mai_id
    contrato := upd.contrato.getD b.contrato
    mes_realizacion := match upd.fecha_realizacion with
      | some v => v.m
      | none => b.mes_realizacion
    anio_realizacion := match upd.fecha_realizacion with
      | some v => v.y
      | none => b.anio_realizacion
    updated_by := some uid
    updated_at := now }


/-- The `setattr` loop of `actualizar_examen_tac` over the CT row
(`campos_tac`) and the age recomputation against the (possibly just
updated) base realization date when a birth date is supplied. -/
def applyTacUpd (upd : ExamenTACUpdate) (fechaBase : Date) (t : ExamenTAC) :
    ExamenTAC :=
  { examen_base_id := t.examen_base_id
    fecha_solicitud := upd.fecha_solicitud.getD t.fecha_solicitud
    hora_realizacion := upd.hora_realizacion.getD t.hora_realizacion
    fecha_nacimiento := match upd.fecha_nacimiento with
      | some v => some v
      | none => t.fecha_nacimiento
    edad := match upd.fecha_nacimiento with
      | some v => some (calcular_edad v fechaBase)
      | none => t.edad
    externo := match upd.externo with
      | some v => some v
      | none => t.externo
    protocolo_id := match upd.protocolo_id with
      | some v => some v
      | none => t.protocolo_id
    cod_acv := upd.cod_acv.getD t.cod_acv
    ges := upd.ges.getD t.ges
    medio_contraste := upd.medio_contraste.getD t.medio_contraste
    vfge := match upd.vfge with
      | some v => some v
      | none => t.vfge
    premedicado := match upd.premedicado with
      | some v => some v
      | none => t.premedicado
    diagnostico_clinico_id := match upd.diagnostico_clinico_id with
      | some v => some v
      | none => t.diagnostico_clinico_id
    medico_solicitante_id := match upd.medico_solicitante_id with
      | some v => some v
      | none => t.medico_solicitante_id
    tm_id := match upd.tm_id with
      | some v => some v
      | none => t.tm_id
    tp_id := match upd.tp_id with
      | some v => some v
      | none => t.tp_id
    secretaria_id := match upd.secretaria_id with
      | some v => some v
      | none => t.secretaria_id
    observacion := match upd.observacion with
      | some v => some v
      | none => t.observacion }


/-- `routers/examenes.py::actualizar_examen_tac`: administrator-only;
loads the base row by id, CT type and not-deleted (404 otherwise) and the
CT row by base id, applies the supplied fields to both rows, recomputes
month/year and age as needed, stamps `updated_by`, persists, and returns
the combined view.  (A missing CT row would crash the Python handler; it
is modelled as a 400.) -/
def actualizar_examen_tac (db : DB) (eid : Nat) (upd : ExamenTACUpdate)
    (current : Usuario) (now : Nat) : Except ApiError (DB × ExamenTACResponse) :=
  match require_admin current with
  | .error e => .error e
  | .ok () =>
    match db.examenes.find? (fun b => b.id == eid &&
        b.tipo_examen == "TAC" && b.deleted_at == none) with
    | none => .error .notFound
    | some b =>
      match db.tacs.find? (fun t => t.examen_base_id == eid) with
      | none => .error .badRequest
      | some t =>
        let b' := applyBaseUpd upd current.id now b
        let t' := applyTacUpd upd b'.fecha_realizacion t
        .ok ({ db with
                examenes := replaceFirst (fun x => x.id == eid &&
                  x.tipo_examen == "TAC" && x.deleted_at == none) b' db.examenes
                tacs := replaceFirst (fun x => x.examen_base_id == eid) t'
                  db.tacs },
          tacResponseOf b' t')


-- ============================================================
-- routers/pacientes.py : eliminar_paciente
-- routers/usuarios.py : toggle / eliminar / eliminar_mi_cuenta
-- ============================================================

/-- Remove the first element satisfying the predicate (`db.delete(obj)` on
the row returned by `.first()`). -/
def eraseFirst (p : α → Bool) : List α → List α
  | [] => []
  | x :: xs => if p x then xs else x :: eraseFirst p xs


/-- `routers/pacientes.py::eliminar_paciente`: active caller, explicit
administrator check (403), patient looked up by id (404), then
`db.delete(paciente)`.  The SQLAlchemy cascades declared on the models
(`Paciente.examenes` is `all, delete-orphan` in `models/paciente.py`, and
each specialization relationship on `models/examen_base.py` likewise)
hard-delete every exam referencing the patient together with its CT rows.
No check for existing exam references is performed. -/
def eliminar_paciente (db : DB) (pid : Nat) (current : Usuario) :
    Except ApiError DB :=
  match requireActive current with
  | .error e => .error e
  | .ok () =>
    if current.rol == "administrador" then
      match db.pacientes.find? (fun p => p.id == pid) with
      | none => .error .notFound
      | some _ =>
          let deadIds := (db.examenes.filter
            (fun e => e.paciente_id == pid)).map (fun e => e.id)
          .ok { db with
            pacientes := eraseFirst (fun p => p.id == pid) db.pacientes
            examenes := db.examenes.filter (fun e => !(e.paciente_id == pid))
            tacs := db.tacs.filter
              (fun t => !(deadIds.contains t.examen_base_id)) }
    else .error .forbidden


/-- Modelled from the spec: the credential hashing of `utils/security.py`
is not under `src/` (the spec lists the credential/identity provider as an
external collaborator the core trusts), so password verification is
modelled as the supplied credential matching the stored one. -/
def verify_password (plain hashed : String) : Bool :=
  hashed == plain


/-- `routers/usuarios.py::toggle_usuario`: admin-only; 404 when the user
is absent; 400 on self-targeting; otherwise flips `activo`. -/
def toggle_usuario (db : DB) (uid : Nat) (current : Usuario) :
    Except ApiError (DB × Usuario) :=
  match require_admin current with
  | .error e => .error e
  | .ok () =>
    match db.usuarios.find? (fun u => u.id == uid) with
    | none => .error .notFound
    | some u =>
      if u.id == current.id then .error .badRequest
      else
        let u' := { u with activo := !u.activo }
        .ok ({ db with
                usuarios := replaceFirst (fun x => x.id == uid) u' db.usuarios },
          u')


/-- `routers/usuarios.py::eliminar_usuario`: admin-only; 404 when absent;
400 on self-targeting; 400 when the user owns exam rows (by `created_by`,
deleted or not) and cascading was not requested; with
`eliminar_examenes=true` the owned exams are soft-deleted by a bulk
update, then the user row is removed. -/
def eliminar_usuario (db : DB) (uid : Nat) (eliminar_examenes : Bool)
    (current : Usuario) (now : Nat) : Except ApiError DB :=
  match require_admin current with
  | .error e => .error e
  | .ok () =>
    match db.usuarios.find? (fun u => u.id == uid) with
    | none => .error .notFound
    | some u =>
      if u.id == current.id then .error .badRequest
      else
        let cnt := (db.examenes.filter
          (fun e => e.created_by == some uid)).length
        if 0 < cnt && !eliminar_examenes then .error .badRequest
        else
          let exs := if eliminar_examenes then
              db.examenes.map (fun e =>
                if e.created_by == some uid then
                  { e with deleted_at := some now }
                else e)
            else db.examenes
          .ok { db with
            examenes := exs
            usuarios := eraseFirst (fun x => x.id == uid) db.usuarios }


/-- `routers/usuarios.py::eliminar_mi_cuenta`: any active user may delete
their own account after confirming the password (the route validates a
minimum password length of 6, then the hash), provided they created no
exam rows; the own row is then removed. -/
def eliminar_mi_cuenta (db : DB) (password : String) (current : Usuario) :
    Except ApiError DB :=
  match requireActive current with
  | .error e => .error e
  | .ok () =>
    if password.length < 6 then .error .unprocessable
    else if !(verify_password password current.password_hash) then
      .error .badRequest
    else if 0 < (db.examenes.filter
        (fun e => e.created_by == some current.id)).length then
      .error .badRequest
    else
      .ok { db with
        usuarios := eraseFirst (fun x => x.id == current.id) db.usuarios }


/-- The base-row fields other than `deleted_at`, `updated_by` and
`updated_at`. -/
def baseFrame (e : ExamenBase) :=
  (e.id, e.tipo_examen, e.fecha_realizacion, e.atencion, e.prevision_id,
   e.procedencia_id, e.paciente_id, e.examen_especifico_id, e.codigo_mai_id,
   e.contrato, e.mes_realizacion, e.anio_realizacion, e.created_by,
   e.created_at, e.en_revision, e.motivo_revision)


/-- CT registration as seen by a client: the pydantic schema validation of
`ExamenTACCreate` (`validar_tac`) runs on the request payload before the
endpoint body executes. -/
def registrar_examen_tac (db : DB) (data : ExamenTACCreate) (current : Usuario)
    (now : Nat) : Except ApiError (DB × ExamenTACResponse) :=
  match validar_tac data with
  | .error e => .error (.validation e)
  | .ok () => crear_examen_tac db data current now


-- Shared sample rows for concrete witnesses.

/-- A sample active `ingresador` account. -/
def ingresadorUser : Usuario :=
  { id := 2
    rut := "111111111"
    nombre := "Ingresador"
    email := "ingresador@hospital.cl"
    celular := none
    password_hash := "clave123"
    rol := "ingresador"
    activo := true
    debe_cambiar_password := false }


/-- A sample active administrator account. -/
def adminUser : Usuario :=
  { id := 1
    rut := "123456785"
    nombre := "Admin"
    email := "admin@hospital.cl"
    celular := none
    password_hash := "clave123"
    rol := "administrador"
    activo := true
    debe_cambiar_password := false }


/-- A store holding only the two sample accounts. -/
def emptyDB : DB :=
  { pacientes := []
    usuarios := [adminUser, ingresadorUser]
    examenes := []
    tacs := []
    nextPacienteId := 1
    nextExamenId := 1 }


/-- A well-formed CT registration payload (valid RUT `12345678-5`). -/
def defaultTACData : ExamenTACCreate :=
  { tipo_examen := "TAC"
    fecha_realizacion := ⟨2024, 6, 15⟩
    atencion := "Abierta"
    prevision_id := 1
    procedencia_id := 1
    paciente_rut := "12345678-5"
    paciente_nombre := some "Juan Perez"
    examen_especifico_id := 1
    codigo_mai_id := 1
    contrato := "Institucional"
    fecha_solicitud := ⟨2024, 6, 10⟩
    hora_realizacion := 600
    fecha_nacimiento := none
    externo := none
    protocolo_id := none
    cod_acv := false
    ges := false
    medio_contraste := false
    vfge := none
    premedicado := none
    diagnostico_clinico_id := none
    medico_solicitante_id := none
    tm_id := none
    tp_id := none
    secretaria_id := none
    observacion := none }


/-- Payload for the C4 witness: birth date 2000-06-15, realization
2024-06-15. -/
def dataC4 : ExamenTACCreate :=
  { defaultTACData with fecha_nacimiento := some ⟨2000, 6, 15⟩ }


/-- The patient created by registering `dataC4` against `emptyDB`. -/
def pacienteC4 : Paciente :=
  { id := 1
    rut := "123456785"
    nombre_completo := "Juan Perez"
    fecha_nacimiento := some ⟨2000, 6, 15⟩ }


/-- The base row created by registering `dataC4` against `emptyDB`. -/
def baseC4 : ExamenBase :=
  { id := 1
    tipo_examen := "TAC"
    fecha_realizacion := ⟨2024, 6, 15⟩
    atencion := "Abierta"
    prevision_id := some 1
    procedencia_id := some 1
    paciente_id := 1
    examen_especifico_id := 1
    codigo_mai_id := some 1
    contrato := "Institucional"
    mes_realizacion := 6
    anio_realizacion := 2024
    created_by := some 2
    updated_by := some 2
    created_at := 0
    updated_at := 0
    deleted_at := none
    en_revision := false
    motivo_revision := none }


/-- The CT row created by registering `dataC4` against `emptyDB`. -/
def tacC4 : ExamenTAC :=
  { examen_base_id := 1
    fecha_solicitud := ⟨2024, 6, 10⟩
    hora_realizacion := 600
    fecha_nacimiento := some ⟨2000, 6, 15⟩
    edad := some 24
    externo := none
    protocolo_id := none
    cod_acv := false
    ges := false
    medio_contraste := false
    vfge := none
    premedicado := none
    diagnostico_clinico_id := none
    medico_solicitante_id := none
    tm_id := none
    tp_id := none
    secretaria_id := none
    observacion := none }


/-- The store after registering `dataC4` against `emptyDB`. -/
def dbC4 : DB :=
  { pacientes := [pacienteC4]
    usuarios := emptyDB.usuarios
    examenes := [baseC4]
    tacs := [tacC4]
    nextPacienteId := 2
    nextExamenId := 2 }


/-- The response of registering `dataC4` against `emptyDB`. -/
def respC4 : ExamenTACResponse :=
  { id := 1
    tipo_examen := "TAC"
    fecha_realizacion := ⟨2024, 6, 15⟩
    atencion := "Abierta"
    mes_realizacion := 6
    anio_realizacion := 2024
    created_at := 0
    fecha_solicitud := ⟨2024, 6, 10⟩
    hora_realizacion := 600
    edad := some 24
    cod_acv := false
    ges := false
    medio_contraste := false
    observacion := none }


/-- The patient row created by the first C5 witness call. -/
def pacienteC5 : Paciente :=
  { id := 1
    rut := "123456785"
    nombre_completo := "Juan Perez"
    fecha_nacimiento := none }


/-- The store after creating `pacienteC5` from `emptyDB`. -/
def dbC5 : DB :=
  { emptyDB with pacientes := [pacienteC5], nextPacienteId := 2 }


/-- The store after soft-deleting exam 1 of `dbC4` at instant 5. -/
def dbC6 : DB :=
  { dbC4 with examenes :=
      [{ baseC4 with deleted_at := some 5, updated_by := some 1,
                     updated_at := 5 }] }


/-- The update payload of the C10 witness: request date after the stored
realization date, and a non-sentinel renal-function value with
`premedicado` untouched. -/
def updC10 : ExamenTACUpdate :=
  { fecha_solicitud := some ⟨2024, 7, 1⟩, vfge := some "12.5" }


/-- The store after `eliminar_paciente dbC4 1 adminUser`: patient, exam
and CT rows are all gone. -/
def dbC8 : DB := { dbC4 with pacientes := [], examenes := [], tacs := [] }


/-- A date is never strictly before itself. -/
theorem Date.ltb_irrefl (a : Date) : Date.ltb a a = false := by
  simp [Date.ltb]


/-- `require_ingresador_o_admin` fails only with 403. -/
theorem require_ingresador_error (u : Usuario) (e : ApiError)
    (h : require_ingresador_o_admin u = .error e) : e = .forbidden := by
  unfold require_ingresador_o_admin requireActive at h
  split_ifs at h <;> simp_all


/-- `require_admin` fails only with 403. -/
theorem require_admin_error (u : Usuario) (e : ApiError)
    (h : require_admin u = .error e) : e = .forbidden := by
  unfold require_admin requireActive at h
  split_ifs at h <;> simp_all


/-- `obtener_o_crear_paciente` fails only with 400. -/
theorem obtener_error (db : DB) (rut : String) (nombre : Option String)
    (fnac : Option Date) (e : ApiError)
    (h : obtener_o_crear_paciente db rut nombre fnac = .error e) :
    e = .badRequest := by
  simp only [obtener_o_crear_paciente] at h
  split at h
  · simp_all
  · split at h
    · simp_all
    · split at h <;> simp_all


/-- The endpoint body `crear_examen_tac` never produces a pydantic
validation error: its failures are the 400/403 `HTTPException`s. -/
theorem crear_no_validation (db : DB) (data : ExamenTACCreate) (current : Usuario)
    (now : Nat) (e : TACValidationError) :
    crear_examen_tac db data current now ≠ .error (.validation e) := by
  unfold crear_examen_tac
  cases hreq : require_ingresador_o_admin current with
  | error e' =>
      have := require_ingresador_error current e' hreq
      simp [this]
  | ok u =>
      cases u
      simp only []
      cases hobt : obtener_o_crear_paciente db data.paciente_rut
          data.paciente_nombre data.fecha_nacimiento with
      | error e' =>
          have := obtener_error _ _ _ _ _ hobt
          simp [this]
      | ok r => simp


/-- `obtener_o_crear_paciente` only touches the patient table. -/
theorem obtener_frame (db : DB) (rut : String) (nombre : Option String)
    (fnac : Option Date) (db1 : DB) (p : Paciente)
    (h : obtener_o_crear_paciente db rut nombre fnac = .ok (db1, p)) :
    db1.usuarios = db.usuarios ∧ db1.examenes = db.examenes ∧
      db1.tacs = db.tacs ∧ db1.nextExamenId = db.nextExamenId := by
  simp only [obtener_o_crear_paciente] at h
  split at h
  · simp_all
  · split at h
    · simp only [Except.ok.injEq, Prod.mk.injEq] at h
      obtain ⟨h1, -⟩ := h
      subst h1
      exact ⟨rfl, rfl, rfl, rfl⟩
    · split at h
      · simp_all
      · simp only [Except.ok.injEq, Prod.mk.injEq] at h
        obtain ⟨h1, -⟩ := h
        subst h1
        exact ⟨rfl, rfl, rfl, rfl⟩


/-- C2: registering a CT exam whose request date is strictly later than its
realization date fails with a validation error; an equal request date never
trips this rule. -/
theorem tac_request_date_rule (db : DB) (data : ExamenTACCreate) (u : Usuario)
    (now : Nat) :
    (Date.ltb data.fecha_realizacion data.fecha_solicitud = true →
      registrar_examen_tac db data u now =
        .error (.validation .fechaSolicitudPosterior)) ∧
    (data.fecha_solicitud = data.fecha_realizacion →
      registrar_examen_tac db data u now ≠
        .error (.validation .fechaSolicitudPosterior)) := by
  constructor
  · intro hlt
    unfold registrar_examen_tac validar_tac
    simp [hlt]
  · intro heq
    have hv : validar_tac data =
        (if strTruthy data.vfge &&
            !(strLower (data.vfge.getD "") == "sin creatinina") &&
            data.premedicado == none then
          .error .premedicadoObligatorio
        else .ok ()) := by
      unfold validar_tac
      rw [heq, Date.ltb_irrefl]
      simp
    unfold registrar_examen_tac
    rw [hv]
    by_cases hc : (strTruthy data.vfge &&
        !(strLower (data.vfge.getD "") == "sin creatinina") &&
        data.premedicado == none) = true
    · simp [hc]
    · simp only [hc]
      simp
      exact crear_no_validation db data u now _


/-- C3: a CT registration whose renal-function value is a non-empty string
different (case-insensitively) from the sentinel "sin creatinina" while
`premedicado` is omitted fails with a validation error — no numeric check
is applied to the value; when `vfge` is absent or equals the sentinel in
any letter case, the premedication rule never trips. -/
theorem tac_vfge_rule (db : DB) (data : ExamenTACCreate) (u : Usuario)
    (now : Nat) :
    ((∃ s, data.vfge = some s ∧ s ≠ "" ∧ strLower s ≠ "sin creatinina") →
      data.premedicado = none →
      ∃ e, registrar_examen_tac db data u now = .error (.validation e)) ∧
    ((data.vfge = none ∨ ∃ s, data.vfge = some s ∧ strLower s = "sin creatinina") →
      registrar_examen_tac db data u now ≠
        .error (.validation .premedicadoObligatorio)) := by
  constructor
  · rintro ⟨s, hs, hne, hsent⟩ hprem
    unfold registrar_examen_tac validar_tac
    by_cases hdate : Date.ltb data.fecha_realizacion data.fecha_solicitud = true
    · exact ⟨.fechaSolicitudPosterior, by simp [hdate]⟩
    · refine ⟨.premedicadoObligatorio, ?_⟩
      have hcond : (strTruthy data.vfge &&
          !(strLower (data.vfge.getD "") == "sin creatinina") &&
          data.premedicado == none) = true := by
        simp [hs, strTruthy, hne, hsent, hprem]
      simp [hdate, hcond]
  · intro hoff
    have hcond : (strTruthy data.vfge &&
        !(strLower (data.vfge.getD "") == "sin creatinina") &&
        data.premedicado == none) = false := by
      rcases hoff with hnone | ⟨s, hs, hsent⟩
      · simp [hnone, strTruthy]
      · simp [hs, hsent]
    unfold registrar_examen_tac validar_tac
    by_cases hdate : Date.ltb data.fecha_realizacion data.fecha_solicitud = true
    · simp [hdate]
    · simp [hdate, hcond]
      exact crear_no_validation db data u now _


/-- C4: the derived CT age is the difference of years, decremented by one
exactly when the realization month/day precedes the birth month/day; in
particular birth 2000-06-15 gives age 23 on 2024-06-14 and age 24 on
2024-06-15 and 2024-06-16; and the stored age of a created CT exam is the
derived age of the supplied birth date, or null when none is supplied. -/
theorem tac_edad_derivation :
    (∀ nac ref : Date, calcular_edad nac ref =
      (ref.y : Int) - (nac.y : Int) -
        (if ref.m < nac.m ∨ (ref.m = nac.m ∧ ref.d < nac.d) then 1 else 0)) ∧
    calcular_edad ⟨2000, 6, 15⟩ ⟨2024, 6, 14⟩ = 23 ∧
    calcular_edad ⟨2000, 6, 15⟩ ⟨2024, 6, 15⟩ = 24 ∧
    calcular_edad ⟨2000, 6, 15⟩ ⟨2024, 6, 16⟩ = 24 ∧
    ∀ (db : DB) (data : ExamenTACCreate) (current : Usuario) (now : Nat)
      (db' : DB) (resp : ExamenTACResponse),
      crear_examen_tac db data current now = .ok (db', resp) →
      db'.tacs.map (·.edad) = db.tacs.map (·.edad) ++
        [match data.fecha_nacimiento with
         | some nac => some (calcular_edad nac data.fecha_realizacion)
         | none => none] := by
  refine ⟨?_, by decide, by decide, by decide, ?_⟩
  · intro nac ref
    simp only [calcular_edad]
    split <;> simp
  · intro db data current now db' resp h
    unfold crear_examen_tac at h
    cases hreq : require_ingresador_o_admin current with
    | error e => rw [hreq] at h; simp at h
    | ok v =>
      cases v
      rw [hreq] at h
      simp only [] at h
      cases hobt : obtener_o_crear_paciente db data.paciente_rut
          data.paciente_nombre data.fecha_nacimiento with
      | error e => rw [hobt] at h; simp at h
      | ok r =>
        obtain ⟨db1, pac⟩ := r
        rw [hobt] at h
        simp only [Except.ok.injEq, Prod.mk.injEq] at h
        obtain ⟨h1, -⟩ := h
        have hframe := obtener_frame db _ _ _ db1 pac hobt
        subst h1
        simp [hframe.2.2.1]


/-- Witness for C2 at a concrete input: a request date one day after the
realization date is rejected. -/
theorem tac_request_date_rule_witness :
    Date.ltb (⟨2024, 6, 15⟩ : Date) ⟨2024, 6, 16⟩ = true ∧
    registrar_examen_tac emptyDB
        { defaultTACData with fecha_solicitud := ⟨2024, 6, 16⟩ }
        ingresadorUser 0 =
      .error (.validation .fechaSolicitudPosterior) :=
  ⟨by decide,
    (tac_request_date_rule emptyDB
        { defaultTACData with fecha_solicitud := ⟨2024, 6, 16⟩ }
        ingresadorUser 0).1 (by decide)⟩


/-- Witness for C3 at a concrete input: `vfge = "12.5"` with `premedicado`
omitted is rejected. -/
theorem tac_vfge_rule_witness :
    ∃ e, registrar_examen_tac emptyDB
        { defaultTACData with vfge := some "12.5" } ingresadorUser 0 =
      .error (.validation e) :=
  (tac_vfge_rule emptyDB { defaultTACData with vfge := some "12.5" }
      ingresadorUser 0).1 ⟨"12.5", rfl, by decide, by decide⟩ rfl


-- ============================================================
-- C5 : idempotency of obtener_o_crear_paciente
-- ============================================================

/-- Updating with no supplied date is the identity. -/
theorem actualizaFecha_none (p : Paciente) : actualizaFecha none p = p := rfl


/-- The in-place update never changes the RUT. -/
theorem actualizaFecha_rut (fnac : Option Date) (p : Paciente) :
    (actualizaFecha fnac p).rut = p.rut := by
  unfold actualizaFecha
  cases fnac <;> cases hn : p.fecha_nacimiento <;> simp


/-- A successful lookup returns a patient carrying the looked-up RUT, and
looking it up again with no birth date leaves the table unchanged and
returns the same patient. -/
theorem buscarActualizar_stable (rutL : String) (fnac : Option Date) :
    ∀ ps ps' q, buscarActualizar rutL fnac ps = some (ps', q) →
      q.rut = rutL ∧ buscarActualizar rutL none ps' = some (ps', q) := by
  intro ps
  induction ps with
  | nil => intro ps' q h; simp [buscarActualizar] at h
  | cons p rest ih =>
    intro ps' q h
    simp only [buscarActualizar] at h
    by_cases hp : (p.rut == rutL) = true
    · rw [if_pos hp] at h
      simp only [Option.some.injEq, Prod.mk.injEq] at h
      obtain ⟨h1, h2⟩ := h
      subst h1
      subst h2
      have hr : (actualizaFecha fnac p).rut = rutL := by
        rw [actualizaFecha_rut]; simpa using hp
      refine ⟨hr, ?_⟩
      simp only [buscarActualizar]
      rw [if_pos (by simpa using hr), actualizaFecha_none]
    · rw [if_neg hp] at h
      cases hrec : buscarActualizar rutL fnac rest with
      | none => rw [hrec] at h; simp at h
      | some r =>
        obtain ⟨ps0, q0⟩ := r
        rw [hrec] at h
        simp at h
        obtain ⟨h1, h2⟩ := h
        subst h1
        subst h2
        obtain ⟨hq, hagain⟩ := ih ps0 q0 hrec
        refine ⟨hq, ?_⟩
        simp only [buscarActualizar]
        rw [if_neg hp, hagain]
        rfl


/-- A failed lookup followed by appending a fresh row carrying the RUT
makes the next lookup (with no birth date) return that row unchanged. -/
theorem buscarActualizar_append (rutL : String) (fnac : Option Date)
    (nuevo : Paciente) (hnew : nuevo.rut = rutL) :
    ∀ ps, buscarActualizar rutL fnac ps = none →
      buscarActualizar rutL none (ps ++ [nuevo]) =
        some (ps ++ [nuevo], nuevo) := by
  intro ps
  induction ps with
  | nil =>
    intro _
    simp only [List.nil_append, buscarActualizar]
    rw [if_pos (by simpa using hnew), actualizaFecha_none]
  | cons p rest ih =>
    intro h
    simp only [buscarActualizar] at h
    by_cases hp : (p.rut == rutL) = true
    · rw [if_pos hp] at h
      simp at h
    · rw [if_neg hp] at h
      have hrec : buscarActualizar rutL fnac rest = none := by
        cases hr : buscarActualizar rutL fnac rest with
        | none => rfl
        | some r => rw [hr] at h; simp at h
      have hstep := ih hrec
      simp only [List.cons_append, buscarActualizar, List.append_eq]
      rw [if_neg hp, hstep]
      rfl


/-- A lookup over a table whose matching row `q` is first found after a
non-matching prefix, with a birth date supplied while `q` stores none,
updates `q` in place. -/
theorem buscarActualizar_update (rutL : String) (d : Date) (q : Paciente)
    (hq : q.rut = rutL) (hnone : q.fecha_nacimiento = none) :
    ∀ ps1 ps2, (∀ r ∈ ps1, r.rut ≠ rutL) →
      buscarActualizar rutL (some d) (ps1 ++ q :: ps2) =
        some (ps1 ++ { q with fecha_nacimiento := some d } :: ps2,
          { q with fecha_nacimiento := some d }) := by
  intro ps1
  induction ps1 with
  | nil =>
    intro ps2 _
    simp only [List.nil_append, buscarActualizar]
    rw [if_pos (by simpa using hq)]
    have : actualizaFecha (some d) q = { q with fecha_nacimiento := some d } := by
      unfold actualizaFecha
      rw [hnone]
    rw [this]
  | cons p rest ih =>
    intro ps2 hpre
    have hp : (p.rut == rutL) = false := by
      simp only [beq_eq_false_iff_ne, ne_eq]
      exact hpre p (by simp)
    simp only [List.cons_append, buscarActualizar, List.append_eq]
    rw [if_neg (by simp [hp]), ih ps2 (fun r hr => hpre r (by simp [hr]))]
    rfl


/-- C5: `findOrCreate` is idempotent — a successful call followed by a call
with the same national ID and no new birth date returns the same patient
and leaves the store unchanged; and when the patient exists with no stored
birth date and one is supplied, it is updated in place and the existing
patient is returned. -/
theorem findOrCreate_idempotent (db : DB) (rut : String)
    (nombre nombre2 : Option String) (fnac : Option Date) (db' : DB)
    (p : Paciente) (d : Date) :
    (obtener_o_crear_paciente db rut nombre fnac = .ok (db', p) →
      obtener_o_crear_paciente db' rut nombre2 none = .ok (db', p)) ∧
    (∀ ps1 q ps2, validar_rut_chileno (limpiar_rut rut) = true →
      db.pacientes = ps1 ++ q :: ps2 →
      (∀ r ∈ ps1, r.rut ≠ limpiar_rut rut) →
      q.rut = limpiar_rut rut → q.fecha_nacimiento = none →
      obtener_o_crear_paciente db rut nombre (some d) =
        .ok ({ db with pacientes :=
                ps1 ++ { q with fecha_nacimiento := some d } :: ps2 },
          { q with fecha_nacimiento := some d })) := by
  constructor
  · intro h
    simp only [obtener_o_crear_paciente] at h ⊢
    by_cases hv : validar_rut_chileno (limpiar_rut rut) = true
    · rw [if_neg (by simp [hv])] at h ⊢
      cases hb : buscarActualizar (limpiar_rut rut) fnac db.pacientes with
      | some r =>
        obtain ⟨ps', q⟩ := r
        rw [hb] at h
        simp only [Except.ok.injEq, Prod.mk.injEq] at h
        obtain ⟨h1, h2⟩ := h
        subst h1; subst h2
        have := (buscarActualizar_stable (limpiar_rut rut) fnac
          db.pacientes ps' q hb).2
        simp [this]
      | none =>
        rw [hb] at h
        by_cases hn : strTruthy nombre = true
        · rw [if_neg (by simp [hn])] at h
          simp only [Except.ok.injEq, Prod.mk.injEq] at h
          obtain ⟨h1, h2⟩ := h
          subst h1; subst h2
          have := buscarActualizar_append (limpiar_rut rut) fnac
            { id := db.nextPacienteId
              rut := limpiar_rut rut
              nombre_completo := nombre.getD ""
              fecha_nacimiento := fnac } rfl db.pacientes hb
          simp [this]
        · rw [if_pos (by simp [hn])] at h
          simp at h
    · rw [if_pos (by simp [hv])] at h
      simp at h
  · intro ps1 q ps2 hv hsplit hpre hq hnone
    simp only [obtener_o_crear_paciente]
    rw [if_neg (by simp [hv]), hsplit,
      buscarActualizar_update (limpiar_rut rut) d q hq hnone ps1 ps2 hpre]


/-- Witness for C5 at concrete inputs: the second call returns the same
patient and store, and a supplied birth date is written in place. -/
theorem findOrCreate_idempotent_witness :
    (obtener_o_crear_paciente dbC5 "12345678-5" (some "Otro Nombre") none =
      .ok (dbC5, pacienteC5)) ∧
    (obtener_o_crear_paciente dbC5 "12345678-5" none (some ⟨2000, 6, 15⟩) =
      .ok ({ dbC5 with pacientes :=
              [{ pacienteC5 with fecha_nacimiento := some ⟨2000, 6, 15⟩ }] },
        { pacienteC5 with fecha_nacimiento := some ⟨2000, 6, 15⟩ })) := by
  constructor
  · exact (findOrCreate_idempotent emptyDB "12345678-5" (some "Juan Perez")
      (some "Otro Nombre") none dbC5 pacienteC5 ⟨2000, 6, 15⟩).1 (by rfl)
  · have h := (findOrCreate_idempotent dbC5 "12345678-5" none none none
      dbC5 pacienteC5 ⟨2000, 6, 15⟩).2 [] pacienteC5 [] (by decide)
      (by rfl) (by simp) (by rfl) (by rfl)
    simpa using h


/-- Witness for C4 at a concrete input: the single stored CT row carries
`edad = 24` derived from birth 2000-06-15 and realization 2024-06-15. -/
theorem tac_edad_derivation_witness :
    dbC4.tacs.map (·.edad) = emptyDB.tacs.map (·.edad) ++
      [some (calcular_edad ⟨2000, 6, 15⟩ ⟨2024, 6, 15⟩)] :=
  tac_edad_derivation.2.2.2.2 emptyDB dataC4 ingresadorUser 0 dbC4 respC4
    (by rfl)


-- ============================================================
-- C6 : frame and read-exclusion of the soft delete
-- ============================================================

/-- Membership after insertion. -/
theorem mem_insertSorted (le : α → α → Bool) (x a : α) :
    ∀ l, a ∈ insertSorted le x l → a = x ∨ a ∈ l := by
  intro l
  induction l with
  | nil =>
    intro h
    simp [insertSorted] at h
    exact Or.inl h
  | cons y ys ih =>
    intro h
    unfold insertSorted at h
    split at h
    · simpa using h
    · rcases List.mem_cons.mp h with h1 | h1
      · right; simp [h1]
      · rcases ih h1 with h2 | h2
        · left; exact h2
        · right; simp [h2]


/-- The sort does not invent elements. -/
theorem mem_sortBy (le : α → α → Bool) (a : α) :
    ∀ l, a ∈ sortBy le l → a ∈ l := by
  intro l
  induction l with
  | nil => intro h; simp [sortBy] at h
  | cons x xs ih =>
    intro h
    rcases mem_insertSorted le x a (sortBy le xs) h with h1 | h1
    · simp [h1]
    · simp [ih h1]


/-- Every joined pair draws its base row from the base table. -/
theorem mem_joinTList (bs : List ExamenBase) (ts : List ExamenTAC)
    (bt : ExamenBase × ExamenTAC) (h : bt ∈ joinTList bs ts) : bt.1 ∈ bs := by
  induction bs with
  | nil => simp [joinTList] at h
  | cons b rest ih =>
    unfold joinTList at h ih
    rw [List.foldr_cons, List.mem_append] at h
    rcases h with h1 | h1
    · obtain ⟨t, -, rfl⟩ := List.mem_map.mp h1
      simp
    · simp [ih h1]


/-- The truthiness-guarded filter does not invent elements. -/
theorem mem_optNatFilter (sel : ExamenBase × ExamenTAC → Nat) (o : Option Nat)
    (q : List (ExamenBase × ExamenTAC)) (bt : ExamenBase × ExamenTAC)
    (h : bt ∈ optNatFilter sel o q) : bt ∈ q := by
  cases o with
  | none => exact h
  | some m =>
    simp only [optNatFilter] at h
    by_cases hm : (m == 0) = true
    · rwa [if_pos hm] at h
    · rw [if_neg hm] at h
      exact List.mem_of_mem_filter h


/-- The date filters do not invent elements: everything in the filtered
query is a non-deleted CT joined pair. -/
theorem mem_listarFiltro (db : DB) (fi ff : Option Date)
    (bt : ExamenBase × ExamenTAC) (h : bt ∈ listarFiltro db fi ff) :
    bt ∈ (joinTList db.examenes db.tacs).filter
      (fun bt => bt.1.tipo_examen == "TAC" && bt.1.deleted_at == none) := by
  simp only [listarFiltro] at h
  cases ff <;> cases fi <;>
    simp only [] at h <;>
    first
      | exact h
      | exact List.mem_of_mem_filter h
      | exact List.mem_of_mem_filter (List.mem_of_mem_filter h)


/-- Every response produced by the listing tail comes from a joined pair of
the filtered input. -/
theorem mem_listarRest (q : List (ExamenBase × ExamenTAC)) (mes anio : Option Nat)
    (skip limit : Nat) (r : ExamenTACResponse)
    (h : r ∈ listarRest q mes anio skip limit) :
    ∃ bt ∈ q, r = tacResponseOf bt.1 bt.2 := by
  simp only [listarRest] at h
  obtain ⟨bt, hbt, rfl⟩ := List.mem_map.mp h
  have h1 : bt ∈ (sortBy
      (fun x y => Date.leb y.1.fecha_realizacion x.1.fecha_realizacion)
      (optNatFilter (fun bt => bt.1.anio_realizacion) anio
        (optNatFilter (fun bt => bt.1.mes_realizacion) mes q))).drop skip :=
    List.take_subset _ _ hbt
  have h2 := List.drop_subset _ _ h1
  have h3 := mem_sortBy _ _ _ h2
  have h4 := mem_optNatFilter _ _ _ _ h3
  have h5 := mem_optNatFilter _ _ _ _ h4
  exact ⟨bt, h5, rfl⟩


/-- Every response of a successful CT listing comes from a non-deleted CT
base row, whose id it carries. -/
theorem listar_sound (db : DB) (skip limit : Nat)
    (fecha_inicio fecha_fin : Option Date) (paciente_rut : Option String)
    (mes anio : Option Nat) (current : Usuario) (l : List ExamenTACResponse)
    (hl : listar_examenes_tac db skip limit fecha_inicio fecha_fin paciente_rut
      mes anio current = .ok l) (r : ExamenTACResponse) (hr : r ∈ l) :
    ∃ b ∈ db.examenes, b.tipo_examen = "TAC" ∧ b.deleted_at = none ∧
      r.id = b.id := by
  simp only [listar_examenes_tac] at hl
  cases hreq : require_ingresador_o_admin current with
  | error e => rw [hreq] at hl; simp at hl
  | ok v =>
    cases v
    rw [hreq] at hl
    simp only [] at hl
    have main : ∀ q', (∀ bt ∈ q', bt ∈ (joinTList db.examenes db.tacs).filter
        (fun bt => bt.1.tipo_examen == "TAC" && bt.1.deleted_at == none)) →
        r ∈ listarRest q' mes anio skip limit →
        ∃ b ∈ db.examenes, b.tipo_examen = "TAC" ∧ b.deleted_at = none ∧
          r.id = b.id := by
      intro q' hsub hmem
      obtain ⟨bt, hbt, rfl⟩ := mem_listarRest q' mes anio skip limit _ hmem
      have h0 := hsub bt hbt
      rw [List.mem_filter] at h0
      obtain ⟨hj, hpred⟩ := h0
      have hb := mem_joinTList _ _ _ hj
      refine ⟨bt.1, hb, ?_, ?_, rfl⟩
      · have := (Bool.and_eq_true _ _).mp hpred
        simpa using this.1
      · have := (Bool.and_eq_true _ _).mp hpred
        simpa using this.2
    cases hpr : paciente_rut with
    | none =>
      rw [hpr] at hl
      simp only [Except.ok.injEq] at hl
      subst hl
      exact main _ (fun bt hbt => mem_listarFiltro db _ _ bt hbt) hr
    | some rs =>
      rw [hpr] at hl
      simp only [] at hl
      by_cases hrs : (rs == "") = true
      · rw [if_pos hrs] at hl
        simp only [Except.ok.injEq] at hl
        subst hl
        exact main _ (fun bt hbt => mem_listarFiltro db _ _ bt hbt) hr
      · rw [if_neg hrs] at hl
        cases hf : db.pacientes.find? (fun p => p.rut == limpiar_rut rs) with
        | some pac =>
          rw [hf] at hl
          simp only [Except.ok.injEq] at hl
          subst hl
          exact main _
            (fun bt hbt =>
              mem_listarFiltro db _ _ bt (List.mem_of_mem_filter hbt)) hr
        | none =>
          rw [hf] at hl
          simp only [Except.ok.injEq] at hl
          subst hl
          simp at hr


/-- A successful `require_admin` means an active administrator. -/
theorem require_admin_ok_shape (u : Usuario) (h : require_admin u = .ok ()) :
    u.activo = true ∧ u.rol = "administrador" := by
  unfold require_admin requireActive at h
  by_cases ha : u.activo = true
  · rw [if_pos ha] at h
    simp only [] at h
    by_cases hr : (u.rol == "administrador") = true
    · exact ⟨ha, by simpa using hr⟩
    · rw [if_neg hr] at h
      simp at h
  · rw [if_neg ha] at h
    simp at h


/-- An active administrator passes the `ingresador`-or-admin guard. -/
theorem require_ingresador_of_admin (u : Usuario)
    (h : require_admin u = .ok ()) : require_ingresador_o_admin u = .ok () := by
  obtain ⟨ha, hr⟩ := require_admin_ok_shape u h
  simp [require_ingresador_o_admin, requireActive, ha, hr]


/-- Shape of a successful soft delete: the first matching row is stamped,
every other row is untouched, order and length are preserved, and (when
base ids are unique) no remaining row is a non-deleted CT exam with the
deleted id. -/
theorem softDeleteFirst_spec (eid uid now : Nat) :
    ∀ es es', softDeleteFirst eid uid now es = some es' →
      es'.length = es.length ∧
      List.Forall₂ (fun e e' => e' = e ∨
        (baseFrame e' = baseFrame e ∧ e'.deleted_at = some now ∧
          e'.updated_by = some uid ∧ e'.updated_at = now)) es es' ∧
      ((es.map (fun e => e.id)).Nodup →
        ∀ e' ∈ es', ¬(e'.id = eid ∧ e'.tipo_examen = "TAC" ∧
          e'.deleted_at = none)) := by
  intro es
  induction es with
  | nil => intro es' h; simp [softDeleteFirst] at h
  | cons e rest ih =>
    intro es' h
    simp only [softDeleteFirst] at h
    by_cases hc : (e.id == eid && e.tipo_examen == "TAC" &&
        e.deleted_at == none) = true
    · rw [if_pos hc] at h
      simp only [Option.some.injEq] at h
      subst h
      have heid : e.id = eid := by
        have := (Bool.and_eq_true _ _).mp ((Bool.and_eq_true _ _).mp hc).1
        simpa using this.1
      refine ⟨by simp, ?_, ?_⟩
      · refine List.Forall₂.cons (Or.inr ⟨rfl, rfl, rfl, rfl⟩) ?_
        exact (List.forall₂_same).mpr (fun a _ => Or.inl rfl)
      · intro hnodup e' hmem
        rcases List.mem_cons.mp hmem with h1 | h1
        · subst h1
          rintro ⟨-, -, hdel⟩
          simp at hdel
        · rintro ⟨hid, -, -⟩
          have hnc := hnodup
          rw [List.map_cons, List.nodup_cons] at hnc
          exact hnc.1 (by rw [heid, ← hid]; exact List.mem_map_of_mem _ h1)
    · rw [if_neg hc] at h
      cases hrec : softDeleteFirst eid uid now rest with
      | none => rw [hrec] at h; simp at h
      | some l' =>
        rw [hrec] at h
        simp only [Option.map_some'] at h
        rw [Option.some.injEq] at h
        subst h
        obtain ⟨hlen, hfa, hexc⟩ := ih l' hrec
        refine ⟨by simp [hlen], List.Forall₂.cons (Or.inl rfl) hfa, ?_⟩
        intro hnodup e' hmem
        rcases List.mem_cons.mp hmem with h1 | h1
        · subst h1
          rintro ⟨hid, htipo, hdel⟩
          apply absurd hc
          simp [hid, htipo, hdel]
        · have hnc := hnodup
          rw [List.map_cons, List.nodup_cons] at hnc
          exact hexc hnc.2 e' h1


/-- Shape of a successful `eliminar_examen_tac`. -/
theorem eliminar_ok_shape (db : DB) (eid : Nat) (current : Usuario) (now : Nat)
    (db' : DB) (h : eliminar_examen_tac db eid current now = .ok db') :
    require_admin current = .ok () ∧
    ∃ es', softDeleteFirst eid current.id now db.examenes = some es' ∧
      db' = { db with examenes := es' } := by
  unfold eliminar_examen_tac at h
  cases hreq : require_admin current with
  | error e => rw [hreq] at h; simp at h
  | ok v =>
    cases v
    rw [hreq] at h
    simp only [] at h
    cases hsdf : softDeleteFirst eid current.id now db.examenes with
    | none => rw [hsdf] at h; simp at h
    | some es' =>
      rw [hsdf] at h
      simp only [Except.ok.injEq] at h
      exact ⟨rfl, es', rfl, h.symm⟩


/-- C6 (amended): a successful soft delete of a CT exam stamps the base
row's deletion timestamp and last-modifier — and the ORM's `onupdate` hook
bumps the row's `updated_at` on the same UPDATE — leaves every other base
field, every other row and the whole CT specialization table unchanged,
removes no row physically, and the exam disappears from every subsequent
listing and single-exam read (both filter on `deleted_at IS NULL`). -/
theorem softDeleteExam_spec (db : DB) (eid : Nat) (current : Usuario)
    (now : Nat) (db' : DB)
    (hnodup : (db.examenes.map (fun e => e.id)).Nodup)
    (h : eliminar_examen_tac db eid current now = .ok db') :
    db'.tacs = db.tacs ∧ db'.pacientes = db.pacientes ∧
    db'.usuarios = db.usuarios ∧
    db'.examenes.length = db.examenes.length ∧
    List.Forall₂ (fun e e' => e' = e ∨
      (baseFrame e' = baseFrame e ∧ e'.deleted_at = some now ∧
        e'.updated_by = some current.id ∧ e'.updated_at = now))
      db.examenes db'.examenes ∧
    (∀ skip limit fi ff pr mes anio u l,
      listar_examenes_tac db' skip limit fi ff pr mes anio u = .ok l →
      ∀ r ∈ l, r.id ≠ eid) ∧
    obtener_examen_tac db' eid current = .error .notFound := by
  obtain ⟨hadm, es', hsdf, hdb'⟩ := eliminar_ok_shape db eid current now db' h
  obtain ⟨hlen, hfa, hexc⟩ := softDeleteFirst_spec eid current.id now
    db.examenes es' hsdf
  have hexcl := hexc hnodup
  subst hdb'
  refine ⟨rfl, rfl, rfl, hlen, hfa, ?_, ?_⟩
  · intro skip limit fi ff pr mes anio u l hl r hr
    obtain ⟨b, hb, htipo, hdel, hid⟩ :=
      listar_sound _ skip limit fi ff pr mes anio u l hl r hr
    intro hreq
    exact hexcl b hb ⟨by rw [← hid, hreq], htipo, hdel⟩
  · unfold obtener_examen_tac
    rw [require_ingresador_of_admin current hadm]
    simp only []
    have hfind : (joinTList es' db.tacs).find?
        (fun bt => bt.1.id == eid && bt.1.tipo_examen == "TAC" &&
          bt.1.deleted_at == none) = none := by
      rw [List.find?_eq_none]
      intro bt hbt
      have hb := mem_joinTList _ _ _ hbt
      have := hexcl bt.1 hb
      simp only [not_and] at this
      by_cases h1 : (bt.1.id == eid) = true
      · by_cases h2 : (bt.1.tipo_examen == "TAC") = true
        · have h3 := this (by simpa using h1) (by simpa using h2)
          simp [h1, h2]
          intro hd
          exact absurd hd h3
        · simp [h2]
      · simp [h1]
    rw [hfind]


/-- Witness for C6 at a concrete input: after the soft delete the CT table
is untouched and the single-exam read misses. -/
theorem softDeleteExam_spec_witness :
    dbC6.tacs = dbC4.tacs ∧
    obtener_examen_tac dbC6 1 adminUser = .error .notFound :=
  have h := softDeleteExam_spec dbC4 1 adminUser 5 dbC6 (by decide) (by rfl)
  ⟨h.1, h.2.2.2.2.2.2⟩


/-- Counterexample to C6 as stated: the soft delete's UPDATE also bumps
the base row's `updated_at` (ORM `onupdate`), so a base field other than
the deletion timestamp and the last-modifier changes — here from 0 to 5. -/
theorem softDelete_frame_cex :
    eliminar_examen_tac dbC4 1 adminUser 5 = .ok dbC6 ∧
    dbC4.examenes.map (fun e => e.updated_at) = [0] ∧
    dbC6.examenes.map (fun e => e.updated_at) = [5] :=
  ⟨rfl, rfl, rfl⟩


-- ============================================================
-- C7 : monthly time-series buckets
-- ============================================================

/-- Reading the group-by dict with a zero default returns the count
function, for any count that vanishes off the grouped keys. -/
theorem lookup_grouped (cnt : Nat → Nat) (m : Nat) :
    ∀ ms : List Nat, (m ∉ ms → cnt m = 0) →
      (match (ms.map (fun m' => (m', cnt m'))).find? (fun p => p.1 == m) with
       | some p => p.2
       | none => 0) = cnt m := by
  intro ms
  induction ms with
  | nil =>
    intro h0
    simp [h0 (by simp)]
  | cons a ms ih =>
    intro h0
    by_cases ha : (a == m) = true
    · have ham : a = m := by simpa using ha
      simp [List.find?, ha, ham]
    · simp only [List.map_cons, List.find?]
      rw [show (a == m) = false by simpa using ha]
      refine ih (fun hm => h0 ?_)
      have ham : ¬a = m := by simpa using ha
      simp only [List.mem_cons, not_or]
      exact ⟨fun h => ham h.symm, hm⟩


/-- Element `i` of the mapped range, `i < n`. -/
theorem getD_range_map (n : Nat) (f : Nat → Nat) (i : Nat) (h : i < n) :
    (((List.range n).map f).getD i 0) = f i := by
  rw [List.getD_eq_getElem?_getD, List.getElem?_map, List.getElem?_range h]
  rfl


/-- C7: for every year and optional exam type, the monthly report is a
12-entry array whose entry at 0-based index `m - 1` counts exactly the
non-deleted exams of that year (and type, when one is given — the route
pattern forbids an empty type string) realized in month `m`; months with
no exams read 0, and no bucket is ever missing, also on an empty store. -/
theorem monthly_report_buckets (db : DB) (anio : Nat) (tipo : Option String)
    (u : Usuario) (hu : u.activo = true)
    (htipo : ∀ t, tipo = some t → t ≠ "") :
    examenes_por_periodo db anio tipo u = .ok (porPeriodoData db anio tipo) ∧
    (porPeriodoData db anio tipo).length = 12 ∧
    ∀ m, 1 ≤ m → m ≤ 12 →
      (porPeriodoData db anio tipo).getD (m - 1) 0 =
        (db.examenes.filter (fun e =>
          e.anio_realizacion == anio && e.deleted_at == none &&
          (match tipo with | some t => e.tipo_examen == t | none => true) &&
          e.mes_realizacion == m)).length := by
  refine ⟨?_, by simp [porPeriodoData], ?_⟩
  · simp [examenes_por_periodo, requireActive, hu]
  · intro m hm1 hm12
    have hidx : m - 1 < 12 := by omega
    have hsucc : m - 1 + 1 = m := by omega
    simp only [porPeriodoData]
    rw [getD_range_map 12 _ (m - 1) hidx, hsucc]
    have h0 : m ∉ ((periodoQuery db anio tipo).map
        (fun e => e.mes_realizacion)).dedup →
        ((periodoQuery db anio tipo).filter
          (fun e => e.mes_realizacion == m)).length = 0 := by
      intro hnm
      rw [List.mem_dedup] at hnm
      rw [List.filter_eq_nil_iff.mpr]
      · rfl
      · intro e he
        simp only [beq_iff_eq]
        intro hme
        exact hnm (by rw [← hme]; exact List.mem_map_of_mem _ he)
    rw [lookup_grouped _ m _ h0]
    have hsplit : periodoQuery db anio tipo =
        db.examenes.filter (fun e =>
          e.anio_realizacion == anio && e.deleted_at == none &&
          (match tipo with | some t => e.tipo_examen == t | none => true)) := by
      cases tipo with
      | none =>
        simp only [periodoQuery]
        apply List.filter_congr
        intro e _
        cases (e.anio_realizacion == anio) <;> cases (e.deleted_at == none) <;>
          simp
      | some t =>
        simp only [periodoQuery]
        rw [if_neg (by simpa using htipo t rfl)]
        rw [List.filter_filter]
        apply List.filter_congr
        intro e _
        cases (e.anio_realizacion == anio) <;> cases (e.deleted_at == none) <;>
          cases (e.tipo_examen == t) <;> simp
    rw [hsplit, List.filter_filter]
    apply congrArg
    apply List.filter_congr
    intro e _
    cases (e.anio_realizacion == anio) <;> cases (e.deleted_at == none) <;>
      cases (e.mes_realizacion == m) <;>
      cases (match tipo with
        | some t => e.tipo_examen == t
        | none => true) <;>
      simp


/-- Witness for C7 at a concrete input: in `dbC4` (one CT exam realized
2024-06) the June bucket of year 2024 counts 1. -/
theorem monthly_report_buckets_witness :
    (porPeriodoData dbC4 2024 (some "TAC")).getD 5 0 =
      (dbC4.examenes.filter (fun e =>
        e.anio_realizacion == 2024 && e.deleted_at == none &&
        (match some "TAC" with | some t => e.tipo_examen == t | none => true) &&
        e.mes_realizacion == 6)).length :=
  (monthly_report_buckets dbC4 2024 (some "TAC") adminUser (by rfl)
    (fun t ht => by simp at ht; simp [← ht])).2.2 6 (by omega) (by omega)


-- ============================================================
-- C10 : the CT update path has no cross-field validation
-- ============================================================

/-- Replacing the first predicate match with another match makes the first
match the replacement. -/
theorem find?_replaceFirst (q : α → Bool) (y : α) (hy : q y = true) :
    ∀ l t, l.find? q = some t → (replaceFirst q y l).find? q = some y := by
  intro l
  induction l with
  | nil => intro t h; simp at h
  | cons x xs ih =>
    intro t h
    by_cases hx : q x = true
    · simp only [replaceFirst, if_pos hx]
      simp [List.find?, hy]
    · rw [List.find?_cons_of_neg _ (by simpa using hx)] at h
      simp only [replaceFirst, if_neg hx]
      rw [List.find?_cons_of_neg _ (by simpa using hx)]
      exact ih t h


/-- C10: the CT update never enforces the registration-time cross-field
rules — an administrator update of an existing non-deleted CT exam (with
its CT row present) always succeeds, whatever request date or
renal-function value it sets and with `premedicado` left untouched, and
the supplied values are persisted on the stored CT row. -/
theorem update_no_cross_validation (db : DB) (eid : Nat)
    (upd : ExamenTACUpdate) (current : Usuario) (now : Nat) (b : ExamenBase)
    (t : ExamenTAC) (hadm : require_admin current = .ok ())
    (hb : db.examenes.find? (fun x => x.id == eid &&
      x.tipo_examen == "TAC" && x.deleted_at == none) = some b)
    (ht : db.tacs.find? (fun x => x.examen_base_id == eid) = some t) :
    ∃ db' resp, actualizar_examen_tac db eid upd current now = .ok (db', resp) ∧
      ∃ t', db'.tacs.find? (fun x => x.examen_base_id == eid) = some t' ∧
        (∀ d, upd.fecha_solicitud = some d → t'.fecha_solicitud = d) ∧
        (∀ s, upd.vfge = some s → t'.vfge = some s) ∧
        (upd.premedicado = none → t'.premedicado = t.premedicado) := by
  have htq : (t.examen_base_id == eid) = true := by
    have h := List.find?_some (p := fun x : ExamenTAC => x.examen_base_id == eid) ht
    simpa using h
  have ht'q : ((applyTacUpd upd
      (applyBaseUpd upd current.id now b).fecha_realizacion t).examen_base_id
        == eid) = true := htq
  have heq : actualizar_examen_tac db eid upd current now =
      .ok ({ db with
              examenes := replaceFirst (fun x => x.id == eid &&
                x.tipo_examen == "TAC" && x.deleted_at == none)
                (applyBaseUpd upd current.id now b) db.examenes
              tacs := replaceFirst (fun x => x.examen_base_id == eid)
                (applyTacUpd upd (applyBaseUpd upd current.id now b).fecha_realizacion t)
                db.tacs },
        tacResponseOf (applyBaseUpd upd current.id now b)
          (applyTacUpd upd (applyBaseUpd upd current.id now b).fecha_realizacion t)) := by
    unfold actualizar_examen_tac
    rw [hadm]
    simp only []
    rw [hb]
    simp only []
    rw [ht]
  refine ⟨_, _, heq, ?_⟩
  refine ⟨applyTacUpd upd
    (applyBaseUpd upd current.id now b).fecha_realizacion t, ?_, ?_, ?_, ?_⟩
  · exact find?_replaceFirst (fun x : ExamenTAC => x.examen_base_id == eid)
      (applyTacUpd upd (applyBaseUpd upd current.id now b).fecha_realizacion t)
      ht'q db.tacs t ht
  · intro d hd
    simp [applyTacUpd, hd]
  · intro s hs
    simp [applyTacUpd, hs]
  · intro hp
    simp [applyTacUpd, hp]


-- ============================================================
-- C8 : patient deletion is not blocked by exam references
-- ============================================================

/-- Erasing the first key match shortens the list by one when a match
exists. -/
theorem eraseFirst_length (p : α → Bool) :
    ∀ l (x : α), l.find? p = some x →
      (eraseFirst p l).length + 1 = l.length := by
  intro l
  induction l with
  | nil => intro x h; simp at h
  | cons a as ih =>
    intro x h
    by_cases ha : p a = true
    · simp [eraseFirst, ha]
    · rw [List.find?_cons_of_neg _ (by simpa using ha)] at h
      simp only [eraseFirst, if_neg ha, List.length_cons]
      rw [ih x h]


/-- After erasing the first key match from a list with pairwise-distinct
keys, no element carries the key. -/
theorem eraseFirst_no_key (f : α → Nat) (k : Nat) :
    ∀ l : List α, (l.map f).Nodup →
      ∀ q ∈ eraseFirst (fun x => f x == k) l, f q ≠ k := by
  intro l
  induction l with
  | nil => intro _ q hq; simp [eraseFirst] at hq
  | cons a as ih =>
    intro hnodup q hq
    rw [List.map_cons, List.nodup_cons] at hnodup
    by_cases ha : (f a == k) = true
    · rw [show eraseFirst (fun x => f x == k) (a :: as) = as by
        simp [eraseFirst, ha]] at hq
      intro hqk
      apply hnodup.1
      rw [show f a = k by simpa using ha, ← hqk]
      exact List.mem_map_of_mem _ hq
    · rw [show eraseFirst (fun x => f x == k) (a :: as) =
          a :: eraseFirst (fun x => f x == k) as by
        simp [eraseFirst, ha]] at hq
      rcases List.mem_cons.mp hq with h1 | h1
      · subst h1
        simpa using ha
      · exact ih hnodup.2 q h1


/-- Counterexample to C8 as stated: in `dbC4` the patient (id 1) is
referenced by an exam row, yet the administrator's delete succeeds and the
patient row does not remain in the store. -/
theorem patient_delete_blocked_cex :
    baseC4 ∈ dbC4.examenes ∧ baseC4.paciente_id = pacienteC4.id ∧
    pacienteC4 ∈ dbC4.pacientes ∧
    eliminar_paciente dbC4 pacienteC4.id adminUser = .ok dbC8 ∧
    dbC8.pacientes = [] := by
  refine ⟨?_, rfl, ?_, ?_, rfl⟩
  · simp [dbC4]
  · simp [dbC4]
  · rfl


/-- Amended C8: patient deletion is admin-only and never blocked by exam
references — deleting an existing patient succeeds even when exams
reference it, removing the patient row and (through the declared ORM
cascades) hard-deleting every referencing exam row. -/
theorem patient_delete_cascades (db : DB) (pid : Nat)
    (current other : Usuario) (p : Paciente) :
    (other.rol ≠ "administrador" →
      failed (eliminar_paciente db pid other) = true) ∧
    (current.activo = true → current.rol = "administrador" →
      db.pacientes.find? (fun q => q.id == pid) = some p →
      (db.pacientes.map (fun q => q.id)).Nodup →
      ∃ db', eliminar_paciente db pid current = .ok db' ∧
        (∀ q ∈ db'.pacientes, q.id ≠ pid) ∧
        db'.pacientes.length + 1 = db.pacientes.length ∧
        (∀ e ∈ db'.examenes, e.paciente_id ≠ pid) ∧
        (∀ t ∈ db'.tacs, ∀ e ∈ db.examenes, e.paciente_id = pid →
          t.examen_base_id ≠ e.id) ∧
        db'.usuarios = db.usuarios) := by
  constructor
  · intro hnota
    unfold eliminar_paciente requireActive
    by_cases ha : other.activo = true
    · rw [if_pos ha]
      simp only []
      rw [show (other.rol == "administrador") = false by
        simpa using hnota]
      simp [failed]
    · rw [if_neg ha]
      simp [failed]
  · intro hact hrol hfind hnodup
    have hok : eliminar_paciente db pid current =
        .ok { db with
          pacientes := eraseFirst (fun q => q.id == pid) db.pacientes
          examenes := db.examenes.filter (fun e => !(e.paciente_id == pid))
          tacs := db.tacs.filter (fun t =>
            !(((db.examenes.filter (fun e => e.paciente_id == pid)).map
              (fun e => e.id)).contains t.examen_base_id)) } := by
      unfold eliminar_paciente requireActive
      rw [if_pos hact]
      simp only []
      rw [if_pos (by simp [hrol]), hfind]
    refine ⟨_, hok, ?_, ?_, ?_, ?_, rfl⟩
    · exact eraseFirst_no_key (fun q => q.id) pid db.pacientes hnodup
    · exact eraseFirst_length _ db.pacientes p hfind
    · intro e he
      have := (List.mem_filter.mp he).2
      simpa using this
    · intro t htmem e hemem hepid heq
      have hpred := (List.mem_filter.mp htmem).2
      rw [heq] at hpred
      simp at hpred
      exact hpred e hemem hepid rfl


/-- Witness for the amended C8 at a concrete input: a non-administrator
caller is rejected, and the administrator's delete of the referenced
patient removes the patient, its exams and their CT rows. -/
theorem patient_delete_cascades_witness :
    failed (eliminar_paciente dbC4 1 ingresadorUser) = true ∧
    ∃ db', eliminar_paciente dbC4 1 adminUser = .ok db' ∧
      (∀ q ∈ db'.pacientes, q.id ≠ 1) ∧
      db'.pacientes.length + 1 = dbC4.pacientes.length ∧
      (∀ e ∈ db'.examenes, e.paciente_id ≠ 1) ∧
      (∀ t ∈ db'.tacs, ∀ e ∈ dbC4.examenes, e.paciente_id = 1 →
        t.examen_base_id ≠ e.id) ∧
      db'.usuarios = dbC4.usuarios :=
  have h := patient_delete_cascades dbC4 1 adminUser ingresadorUser pacienteC4
  ⟨h.1 (by decide), h.2 (by rfl) (by rfl) (by rfl) (by decide)⟩


-- ============================================================
-- C9 : self-deactivation / self-deletion and cascaded user deletion
-- ============================================================

/-- Counterexample to C9 as stated: the self-service account deletion is
an operation invoked by the user that deletes their own account — with the
correct password and no owned exams it succeeds and removes the row. -/
theorem user_self_deletion_cex :
    eliminar_mi_cuenta emptyDB "clave123" ingresadorUser =
      .ok { emptyDB with usuarios := [adminUser] } ∧
    ingresadorUser ∈ emptyDB.usuarios ∧
    ingresadorUser ∉ ({ emptyDB with usuarios := [adminUser] } : DB).usuarios := by
  refine ⟨?_, ?_, ?_⟩
  · rfl
  · simp [emptyDB]
  · simp
    decide


/-- Amended C9: the admin user-management operations never deactivate or
delete the caller's own account, and deleting a user who owns exam rows
fails unless cascading is requested, in which case the owned exams are
soft-deleted before the user row is removed; separately, the self-service
deletion lets a user delete their own account after password confirmation
when they own no exam rows. -/
theorem user_self_protection (db : DB) (current : Usuario) (uid now : Nat)
    (casc : Bool) (password : String) :
    failed (toggle_usuario db current.id current) = true ∧
    failed (eliminar_usuario db current.id casc current now) = true ∧
    (0 < (db.examenes.filter (fun e => e.created_by == some uid)).length →
      failed (eliminar_usuario db uid false current now) = true) ∧
    (0 < (db.examenes.filter
        (fun e => e.created_by == some current.id)).length →
      failed (eliminar_mi_cuenta db password current) = true) ∧
    (∀ u, require_admin current = .ok () →
      db.usuarios.find? (fun x => x.id == uid) = some u →
      (u.id == current.id) = false →
      eliminar_usuario db uid true current now =
        .ok { db with
          examenes := db.examenes.map (fun e =>
            if e.created_by == some uid then { e with deleted_at := some now }
            else e)
          usuarios := eraseFirst (fun x => x.id == uid) db.usuarios } ∧
      ∀ e ∈ db.examenes.map (fun e =>
          if e.created_by == some uid then { e with deleted_at := some now }
          else e), e.created_by = some uid → e.deleted_at = some now) := by
  refine ⟨?_, ?_, ?_, ?_, ?_⟩
  · unfold toggle_usuario
    cases hadm : require_admin current with
    | error e => simp [failed]
    | ok v =>
      cases v
      simp only []
      cases hfind : db.usuarios.find? (fun u => u.id == current.id) with
      | none => simp [failed]
      | some u =>
        have hu : (u.id == current.id) = true := by
          have h := List.find?_some (p := fun x : Usuario => x.id == current.id)
            hfind
          simpa using h
        simp [hu, failed]
  · unfold eliminar_usuario
    cases hadm : require_admin current with
    | error e => simp [failed]
    | ok v =>
      cases v
      simp only []
      cases hfind : db.usuarios.find? (fun u => u.id == current.id) with
      | none => simp [failed]
      | some u =>
        have hu : (u.id == current.id) = true := by
          have h := List.find?_some (p := fun x : Usuario => x.id == current.id)
            hfind
          simpa using h
        simp [hu, failed]
  · intro hcnt
    unfold eliminar_usuario
    cases hadm : require_admin current with
    | error e => simp [failed]
    | ok v =>
      cases v
      simp only []
      cases hfind : db.usuarios.find? (fun u => u.id == uid) with
      | none => simp [failed]
      | some u =>
        by_cases hu : (u.id == current.id) = true
        · simp [hu, failed]
        · have hc : (0 < (db.examenes.filter
              (fun e => e.created_by == some uid)).length && !false) = true := by
            simp [hcnt]
          simp [hu, hc, failed, hcnt]
  · intro hcnt
    unfold eliminar_mi_cuenta
    unfold requireActive
    by_cases hact : current.activo = true
    · rw [if_pos hact]
      simp only []
      by_cases hlen : password.length < 6
      · simp [hlen, failed]
      · rw [if_neg hlen]
        by_cases hpw : verify_password password current.password_hash = true
        · rw [show (!verify_password password current.password_hash) = false by
            simp [hpw]]
          simp [hcnt, failed]
        · rw [show (!verify_password password current.password_hash) = true by
            simp only [Bool.not_eq_true] at hpw
            simp [hpw]]
          simp [failed]
    · rw [if_neg hact]
      simp [failed]
  · intro u hadm hfind hneq
    constructor
    · unfold eliminar_usuario
      rw [hadm]
      simp only []
      rw [hfind]
      simp only [hneq]
      simp
    · intro e he hcb
      obtain ⟨e0, he0, heq⟩ := List.mem_map.mp he
      by_cases hc : (e0.created_by == some uid) = true
      · rw [if_pos hc] at heq
        rw [← heq]
      · rw [if_neg hc] at heq
        subst heq
        rw [hcb] at hc
        simp at hc


/-- Witness for the amended C9 at concrete inputs: self-toggle fails, the
non-cascading delete of the exam-owning `ingresadorUser` fails, and the
cascading delete soft-deletes the owned exam and removes the user row. -/
theorem user_self_protection_witness :
    failed (toggle_usuario dbC4 1 adminUser) = true ∧
    failed (eliminar_usuario dbC4 2 false adminUser 7) = true ∧
    eliminar_usuario dbC4 2 true adminUser 7 =
      .ok { dbC4 with
        examenes := dbC4.examenes.map (fun e =>
          if e.created_by == some 2 then { e with deleted_at := some 7 }
          else e)
        usuarios := eraseFirst (fun x => x.id == 2) dbC4.usuarios } :=
  have h := user_self_protection dbC4 adminUser 2 7 false "clave123"
  ⟨h.1, h.2.2.1 (by decide),
    (h.2.2.2.2 ingresadorUser (by rfl) (by rfl) (by rfl)).1⟩


/-- Witness for C10 at a concrete input: the update is accepted against
`dbC4` (realization 2024-06-15, stored `premedicado = none`) and the new
values are persisted. -/
theorem update_no_cross_validation_witness :
    ∃ db' resp, actualizar_examen_tac dbC4 1 updC10 adminUser 9 =
        .ok (db', resp) ∧
      ∃ t', db'.tacs.find? (fun x => x.examen_base_id == 1) = some t' ∧
        (∀ d, updC10.fecha_solicitud = some d → t'.fecha_solicitud = d) ∧
        (∀ s, updC10.vfge = some s → t'.vfge = some s) ∧
        (updC10.premedicado = none → t'.premedicado = tacC4.premedicado) :=
  update_no_cross_validation dbC4 1 updC10 adminUser 9 baseC4 tacC4
    (by rfl) (by rfl) (by rfl)



-- ============================================================
-- Theorems: C1
-- ============================================================


/-- `codeSumLoop` starting at weight `2 + i % 6` computes `suma` plus the
reference weighted sum with the position counter starting at `i`. -/
theorem codeSumLoop_eq_refSum (ds : List Char) :
    ∀ suma i, codeSumLoop ds suma (2 + i % 6) = suma + refSum ds i := by
  induction ds with
  | nil => intro suma i; simp [codeSumLoop, refSum]
  | cons d ds ih =>
    intro suma i
    have hnext :
        (if (2 + i % 6) + 1 == 8 then 2 else (2 + i % 6) + 1) = 2 + (i + 1) % 6 := by
      by_cases h5 : i % 6 = 5
      · simp [h5]
        omega
      · have h6 : i % 6 < 6 := Nat.mod_lt _ (by omega)
        have hc : ((2 + i % 6) + 1 == 8) = false := by
          simp only [beq_eq_false_iff_ne, ne_eq]
          omega
        simp [hc]
        omega
    rw [codeSumLoop, hnext, ih (suma + charToNat d * (2 + i % 6)) (i + 1)]
    simp [refSum]
    ring


/-- The accumulation loop started at weight 2 is the reference weighted sum. -/
theorem codeSumLoop_two (l : List Char) : codeSumLoop l 0 2 = refSum l 0 := by
  have h := codeSumLoop_eq_refSum l 0 0
  simpa using h


/-- C1: for every input string, the RUT validator accepts iff, after
normalization, the supplied check character equals the check digit computed
by the weighted modulo-11 reference algorithm (weights cycling 2..7
right-to-left, `check = 11 - (sum mod 11)`, 11 mapped to "0" and 10 mapped
to "K") and the numeric portion is all digits with at least 8 total
characters; the validator is a pure total Lean function into `Bool`, so it
returns only `true` or `false`. -/
theorem rut_validator_matches_reference (rut : String) :
    validar_rut_chileno rut = rutReference rut ∧
    (validar_rut_chileno rut = true ↔
      8 ≤ (rutNormalize rut).length ∧
      (rutNormalize rut).dropLast.all Char.isDigit = true ∧
      (rutNormalize rut).getLastD ' ' =
        dvChar (11 - refSum (rutNormalize rut).dropLast.reverse 0 % 11)) := by
  have hmain : validar_rut_chileno rut = rutReference rut := by
    simp only [validar_rut_chileno, rutReference, codeSumLoop_two]
  refine ⟨hmain, ?_⟩
  rw [hmain]
  unfold rutReference
  by_cases h8 : (rutNormalize rut).length < 8
  · simp [h8]
  · simp only [h8, if_false]
    by_cases hd : (rutNormalize rut).dropLast.all Char.isDigit
    · simp [hd]
      omega
    · simp [hd]

end Hospital
